import Mathlib

/-!
# Tunnel Registry (wg-easy `src/lib/WireGuard.js`) — shallow embedding

A shallow embedding of the WireGuard management module: the persisted
state (server record plus keyed peer collection), the config-file
renderers, the CRUD operations over peers, and the live-status merge.
External effects (process execution for key generation, file I/O, the
live-status dump) are modelled by passing their results as explicit
arguments; thrown JS errors are modelled with `Except` over a `JsError`
type that distinguishes plain errors, `ServerError` values carrying an
HTTP status code, and the runtime `TypeError` / `ReferenceError` faults
reachable in the source.
-/

/-- JS single-character `String.prototype.split` at the `List Char` level:
splits at every occurrence of the separator, keeping empty segments, and
returns `[[]]` on the empty list (JS: `"".split(c)` is `[""]`). -/
def splitCh (sep : Char) : List Char → List (List Char)
  | [] => [[]]
  | c :: cs =>
    if c = sep then [] :: splitCh sep cs
    else
      match splitCh sep cs with
      | [] => [[c]]
      | t :: ts => (c :: t) :: ts

/-- JS `s.split(sep)` for a single-character separator. -/
def jsSplit (s : String) (sep : Char) : List String :=
  (splitCh sep s.data).map String.mk

/-- JS `Array.prototype.join(sep)`: empty array joins to the empty string,
otherwise the elements interleaved with the separator. -/
def jsJoin (sep : String) : List String → String
  | [] => ""
  | [x] => x
  | x :: xs => x ++ sep ++ jsJoin sep xs

/-- JS `arr[i] = v` on an array of strings: in-range assignment replaces,
out-of-range assignment extends the array, with the skipped holes
rendering as empty strings under `join`. -/
def jsSetIndex (l : List String) (i : Nat) (v : String) : List String :=
  if i < l.length then l.set i v
  else l ++ List.replicate (i - l.length) "" ++ [v]

/-- Value of a decimal digit string read left to right with accumulator,
as JS `Number` computes it on digit-only strings. -/
def digitsVal : List Char → Nat → Nat
  | [], acc => acc
  | c :: cs, acc => digitsVal cs (acc * 10 + (c.toNat - 48))

/-- JS `Number(s)` restricted to strings of decimal digits — the format of
the numeric fields of the live-status dump. -/
def jsNumberDigits (s : String) : Nat :=
  digitsVal s.data 0

/-- Truthiness of a JS value that is either a string or null/undefined:
null, undefined and the empty string are falsy. -/
def jsTruthy : Option String → Bool
  | none => false
  | some s => s ≠ ""

/-- JS string interpolation of a possibly-undefined value: `undefined`
renders as the literal text `undefined`. -/
def jsInterp : Option String → String
  | none => "undefined"
  | some s => s

/-- Thrown JS errors: `new Error(msg)`, `new ServerError(msg, status)`,
and the runtime faults reachable in `createClient`. -/
inductive JsError where
  | error (message : String)
  | serverError (message : String) (statusCode : Nat)
  | typeError (message : String)
  | referenceError (message : String)
  deriving DecidableEq, Repr

/-- The HTTP-equivalent status carried by an error: only `ServerError`
instances carry one. -/
def JsError.status? : JsError → Option Nat
  | .serverError _ code => some code
  | _ => none

/-- The server record of the persisted document. `cidrSubnet` is read by
the renderer but no code path ever assigns it, so it is an `Option`
(`none` = the JS property is absent / `undefined`). -/
structure Server where
  privateKey : String
  publicKey : String
  address : String
  cidrSubnet : Option String
  deriving DecidableEq, Repr

/-- A stored peer (client) record. `privateKey`, `preSharedKey`,
`allowedIPs` and `cidrSubnet` model optional JS properties. Timestamps
are epoch milliseconds. -/
structure Client where
  id : String
  name : String
  address : String
  privateKey : Option String
  publicKey : String
  preSharedKey : Option String
  cidrSubnet : Option String
  allowedIPs : Option String
  createdAt : Nat
  updatedAt : Nat
  enabled : Bool
  deriving DecidableEq, Repr

/-- The persisted document: singleton server record plus the peer
collection, an insertion-ordered map from id to peer
(`Object.entries` order). -/
structure Config where
  server : Server
  clients : List (String × Client)
  deriving DecidableEq, Repr

/-- The configured environment values consumed by the module
(`WG_PORT`, hooks, DNS, MTU, …). DNS and MTU may be null. -/
structure Env where
  wgHost : String
  wgPort : String
  wgConfigPort : String
  wgMtu : Option String
  wgDefaultDns : Option String
  wgDefaultAddress : String
  wgPersistentKeepalive : String
  wgAllowedIps : String
  wgPreUp : String
  wgPostUp : String
  wgPreDown : String
  wgPostDown : String
  deriving DecidableEq, Repr

/-- JS property read `config.clients[clientId]`: first (only) entry under
that key. -/
def lookupClient (config : Config) (clientId : String) : Option Client :=
  (config.clients.find? (fun p => p.1 = clientId)).map (·.2)

/-- JS property write `config.clients[clientId].f = v`, as replacement of
the entry under that key. -/
def setClient (config : Config) (clientId : String) (c : Client) : Config :=
  { config with
    clients := config.clients.map (fun p => if p.1 = clientId then (p.1, c) else p) }

/-! ## getConfig: load or bootstrap, memoized -/

/-- The bootstrap address computation of `getConfig`:
`WG_DEFAULT_ADDRESS.split('/')`, destructured into the address part,
then the last octet slot (`tempAddress[3]`) forced to `'1'`. -/
def bootstrapAddress (wgDefaultAddress : String) : String :=
  let ipAddress := (jsSplit wgDefaultAddress '/').headD ""
  let tempAddress := jsSplit ipAddress '.'
  jsJoin "." (jsSetIndex tempAddress 3 "1")

/-- The fresh state built by `getConfig` when the persisted JSON document
cannot be read or parsed: new keypair, bootstrap address, empty peer
collection. The local `cidrSubnet` computed in the source is never
stored on the server record, so the field is `none`. -/
def bootstrapConfig (wgDefaultAddress privateKey publicKey : String) : Config :=
  { server :=
      { privateKey := privateKey
        publicKey := publicKey
        address := bootstrapAddress wgDefaultAddress
        cidrSubnet := none }
    clients := [] }

/-- Loading step of `getConfig`: a successfully read and parsed document
is used as-is, otherwise the bootstrap state is built. -/
def loadConfig (disk : Option Config) (wgDefaultAddress privateKey publicKey : String) :
    Config :=
  match disk with
  | some c => c
  | none => bootstrapConfig wgDefaultAddress privateKey publicKey

/-- The `this.__configPromise` memoization of `getConfig`: a cached result
is returned unchanged without invoking the loader; a cache miss runs the
loader and caches its result. Returns (result, new cache). -/
def getConfigMemo (cache : Option Config) (load : Unit → Config) : Config × Option Config :=
  match cache with
  | some c => (c, some c)
  | none =>
    let c := load ()
    (c, some c)

/-! ## __saveConfig: rendering the daemon config text -/

/-- The `[Interface]` part of the rendered daemon config text. -/
def interfaceSection (env : Env) (config : Config) : String :=
  "\n# Note: Do not edit this file directly.\n# Your changes will be overwritten!\n\n# Server\n[Interface]\nPrivateKey = "
    ++ config.server.privateKey
    ++ "\nAddress = " ++ config.server.address ++ "/" ++ jsInterp config.server.cidrSubnet
    ++ "\nListenPort = " ++ env.wgPort
    ++ "\nPreUp = " ++ env.wgPreUp
    ++ "\nPostUp = " ++ env.wgPostUp
    ++ "\nPreDown = " ++ env.wgPreDown
    ++ "\nPostDown = " ++ env.wgPostDown
    ++ "\n"

/-- One `[Peer]` section of the rendered daemon config text. -/
def clientSection (clientId : String) (c : Client) : String :=
  "\n\n# Client: " ++ c.name ++ " (" ++ clientId ++ ")\n[Peer]\nPublicKey = "
    ++ c.publicKey ++ "\n"
    ++ (if jsTruthy c.preSharedKey then "PresharedKey = " ++ jsInterp c.preSharedKey ++ "\n" else "")
    ++ "AllowedIPs = " ++ c.address ++ "/32"

/-- The peer-section loop of `__saveConfig`: disabled peers are skipped
(`if (!client.enabled) continue`). -/
def clientsSections : List (String × Client) → String
  | [] => ""
  | (clientId, c) :: rest =>
    (if c.enabled then clientSection clientId c else "") ++ clientsSections rest

/-- The full daemon config text rendered by `__saveConfig`. -/
def saveConfigText (env : Env) (config : Config) : String :=
  interfaceSection env config ++ clientsSections config.clients

/-! ## getClients: listing with live-status merge -/

/-- The per-peer projection returned by `getClients`, before the live
dump merge: no private key and no pre-shared key are exposed, only
`downloadableConfig` (presence of a stored private key). -/
structure CView where
  id : String
  name : String
  enabled : Bool
  address : String
  publicKey : String
  createdAt : Nat
  updatedAt : Nat
  allowedIPs : Option String
  downloadableConfig : Bool
  persistentKeepalive : Option String
  latestHandshakeAt : Option Nat
  transferRx : Option Nat
  transferTx : Option Nat
  deriving DecidableEq, Repr

/-- The base projection of one stored peer (the JS presence test of the
privateKey property becomes `Option.isSome` of the optional field). -/
def baseView (p : String × Client) : CView :=
  { id := p.1
    name := p.2.name
    enabled := p.2.enabled
    address := p.2.address
    publicKey := p.2.publicKey
    createdAt := p.2.createdAt
    updatedAt := p.2.updatedAt
    allowedIPs := p.2.allowedIPs
    downloadableConfig := p.2.privateKey.isSome
    persistentKeepalive := none
    latestHandshakeAt := none
    transferRx := none
    transferTx := none }

/-- One tab-separated line of `wg show wg0 dump`, destructured
positionally as in the source. -/
structure DumpLine where
  publicKey : String
  preSharedKey : String
  endpoint : String
  allowedIps : String
  latestHandshakeAt : String
  transferRx : String
  transferTx : String
  persistentKeepalive : String
  deriving DecidableEq, Repr

/-- The field merge applied to a matched peer: a literal `"0"` handshake
becomes null, otherwise `new Date(Number(field + "000"))` — the
epoch-second field converted to epoch milliseconds. -/
def mergeLine (c : CView) (l : DumpLine) : CView :=
  { c with
    latestHandshakeAt :=
      if l.latestHandshakeAt = "0" then none
      else some (jsNumberDigits (l.latestHandshakeAt ++ "000"))
    transferRx := some (jsNumberDigits l.transferRx)
    transferTx := some (jsNumberDigits l.transferTx)
    persistentKeepalive := some l.persistentKeepalive }

/-- Application of one dump line: `clients.find(c => c.publicKey ===
publicKey)` mutated in place — the first peer with that exact public key
is updated, an unmatched line leaves the list unchanged. -/
def applyDumpLine : List CView → DumpLine → List CView
  | [], _ => []
  | c :: rest, l =>
    if c.publicKey = l.publicKey then mergeLine c l :: rest
    else c :: applyDumpLine rest l

/-- `getClients`: one entry per stored peer in collection order, then the
dump lines (header discarded by `slice(1)`) merged in. -/
def getClients (config : Config) (dump : List DumpLine) : List CView :=
  (dump.drop 1).foldl applyDumpLine (config.clients.map baseView)

/-! ## getClient and the mutation operations -/

/-- `getClient`: key lookup, 404 `ServerError` when absent. -/
def getClient (config : Config) (clientId : String) : Except JsError Client :=
  match lookupClient config clientId with
  | some c => .ok c
  | none => .error (.serverError ("Client Not Found: " ++ clientId) 404)

/-- `enableClient`: look up, set `enabled = true`, stamp `updatedAt`. -/
def enableClient (config : Config) (clientId : String) (now : Nat) :
    Except JsError Config := do
  let c ← getClient config clientId
  pure (setClient config clientId { c with enabled := true, updatedAt := now })

/-- `disableClient`: look up, set `enabled = false`, stamp `updatedAt`. -/
def disableClient (config : Config) (clientId : String) (now : Nat) :
    Except JsError Config := do
  let c ← getClient config clientId
  pure (setClient config clientId { c with enabled := false, updatedAt := now })

/-- `updateClientName`: look up, set `name`, stamp `updatedAt`. -/
def updateClientName (config : Config) (clientId name : String) (now : Nat) :
    Except JsError Config := do
  let c ← getClient config clientId
  pure (setClient config clientId { c with name := name, updatedAt := now })

/-- Modelled from the spec: `Util.isValidIPv4` lives in `src/lib/Util.js`,
which is not among the provided sources. Per the spec, it accepts exactly
the syntactically valid IPv4 dotted-quads: four dot-separated decimal
components, each of one to three digits with value at most 255. -/
def isValidIPv4 (s : String) : Bool :=
  let parts := jsSplit s '.'
  parts.length = 4 &&
    parts.all (fun p =>
      decide (p.data ≠ []) && p.data.all (·.isDigit) &&
        decide (p.data.length ≤ 3) && decide (digitsVal p.data 0 ≤ 255))

/-- `updateClientAddress`: look up, validate the address (400
`ServerError` on failure), overwrite, stamp `updatedAt`. -/
def updateClientAddress (config : Config) (clientId address : String) (now : Nat) :
    Except JsError Config := do
  let c ← getClient config clientId
  if isValidIPv4 address then
    pure (setClient config clientId { c with address := address, updatedAt := now })
  else
    .error (.serverError ("Invalid Address: " ++ address) 400)

/-- `deleteClient`: removes the entry when present; absent key is a
no-op. -/
def deleteClient (config : Config) (clientId : String) : Config :=
  { config with clients := config.clients.filter (fun p => p.1 ≠ clientId) }

/-! ## createClient -/

/-- The conflict predicate of the free-address scan, exactly as written:
a stored peer conflicts with candidate `i` when its own address equals
itself with the last-octet slot replaced by `i` — true precisely when
the peer address has `String(i)` in its fourth dot-component. -/
def addressConflict (i : Nat) (c : Client) : Bool :=
  c.address = jsJoin "." (jsSetIndex (jsSplit c.address '.') 3 (toString i))

/-- The `for (let i = 2; i < 255; i++)` scan of `createClient`, with the
remaining iteration count as first argument. When no stored peer
conflicts with candidate `i`, the source enters the `if (!client)`
branch and immediately reads `client.address` with
`client === undefined`, throwing a TypeError before any assignment; when
every candidate conflicts the loop falls through with `address` still
unassigned. -/
def createScanAux (clients : List Client) : Nat → Nat → Except JsError Unit
  | 0, _ => .ok ()
  | fuel + 1, i =>
    match clients.find? (addressConflict i) with
    | some _ => createScanAux clients fuel (i + 1)
    | none => .error (.typeError "Cannot read properties of undefined (reading address)")

/-- The full scan: candidates 2 through 254 inclusive. -/
def createScan (clients : List Client) : Except JsError Unit :=
  createScanAux clients 253 2

/-- `createClient`. The name check precedes all effects; the generated
keys, timestamp and UUID are passed in as the results of the external
calls. After the scan, the `if (!address)` fallback reads the
identifier `client` inside the temporal dead zone of the
`const client = ...` declaration below it, throwing a ReferenceError. -/
def createClient (config : Config) (name privateKey publicKey preSharedKey : String)
    (now : Nat) (newId : String) : Except JsError (Config × Client) :=
  if name = "" then .error (.error "Missing: Name")
  else
    match createScan (config.clients.map (·.2)) with
    | .error e => .error e
    | .ok () => .error (.referenceError "Cannot access client before initialization")

/-! ## getClientConfiguration -/

/-- `getClientConfiguration`: the client-side config text for one stored
peer; 404 when the id is unknown. A missing stored private key renders
the literal `REPLACE_ME` placeholder; the `client.cidrSubnet` property
is never assigned anywhere, so it interpolates as `undefined`. -/
def getClientConfiguration (env : Env) (config : Config) (clientId : String) :
    Except JsError String := do
  let c ← getClient config clientId
  pure <|
    "\n[Interface]\nPrivateKey = "
      ++ (if jsTruthy c.privateKey then jsInterp c.privateKey else "REPLACE_ME")
      ++ "\nAddress = " ++ c.address ++ "/" ++ jsInterp c.cidrSubnet ++ "\n"
      ++ (if jsTruthy env.wgDefaultDns then "DNS = " ++ jsInterp env.wgDefaultDns ++ "\n" else "")
      ++ (if jsTruthy env.wgMtu then "MTU = " ++ jsInterp env.wgMtu ++ "\n" else "")
      ++ "\n[Peer]\nPublicKey = " ++ config.server.publicKey ++ "\n"
      ++ (if jsTruthy c.preSharedKey then "PresharedKey = " ++ jsInterp c.preSharedKey ++ "\n" else "")
      ++ "AllowedIPs = " ++ env.wgAllowedIps
      ++ "\nPersistentKeepalive = " ++ env.wgPersistentKeepalive
      ++ "\nEndpoint = " ++ env.wgHost ++ ":" ++ env.wgConfigPort

/-! ## Auxiliary notions used by the theorems -/

/-- Number of occurrences of a character in a string. -/
def countChar (s : String) (c : Char) : Nat :=
  s.data.count c

/-- A string free of the section-opening bracket; key material, addresses
and host names satisfy this. -/
def bracketFree (s : String) : Bool :=
  s.data.all (· ≠ '[')

/-- All values interpolated into one client config rendering are free of
the section-opening bracket. -/
def configFieldsBracketFree (env : Env) (config : Config) (c : Client) : Bool :=
  bracketFree (jsInterp c.privateKey) && bracketFree c.address &&
    bracketFree (jsInterp c.cidrSubnet) && bracketFree (jsInterp env.wgDefaultDns) &&
    bracketFree (jsInterp env.wgMtu) && bracketFree config.server.publicKey &&
    bracketFree (jsInterp c.preSharedKey) && bracketFree env.wgAllowedIps &&
    bracketFree env.wgPersistentKeepalive && bracketFree env.wgHost &&
    bracketFree env.wgConfigPort

/-- Two stored peers agree on everything `getClients` exposes: all fields
except the private key and pre-shared key values, of which only the
presence is shared. -/
def sameShape (c d : Client) : Prop :=
  c.id = d.id ∧ c.name = d.name ∧ c.address = d.address ∧ c.publicKey = d.publicKey ∧
    c.cidrSubnet = d.cidrSubnet ∧ c.allowedIPs = d.allowedIPs ∧
    c.createdAt = d.createdAt ∧ c.updatedAt = d.updatedAt ∧ c.enabled = d.enabled ∧
    c.privateKey.isSome = d.privateKey.isSome ∧
    c.preSharedKey.isSome = d.preSharedKey.isSome

instance (c d : Client) : Decidable (sameShape c d) := by
  unfold sameShape
  infer_instance

/-- A concrete environment used by the closed evaluation theorems. -/
def sampleEnv : Env :=
  { wgHost := "vpn.example.com"
    wgPort := "51820"
    wgConfigPort := "51820"
    wgMtu := none
    wgDefaultDns := some "1.1.1.1"
    wgDefaultAddress := "10.8.0.x/24"
    wgPersistentKeepalive := "0"
    wgAllowedIps := "0.0.0.0/0, ::/0"
    wgPreUp := ""
    wgPostUp := ""
    wgPreDown := ""
    wgPostDown := "" }

/-- A concrete stored peer used by the closed evaluation theorems. -/
def sampleClient : Client :=
  { id := "c1"
    name := "alice"
    address := "10.8.0.2"
    privateKey := some "CLIENTSK"
    publicKey := "CLIENTPK"
    preSharedKey := some "CLIENTPSK"
    cidrSubnet := none
    allowedIPs := none
    createdAt := 0
    updatedAt := 0
    enabled := true }

/-- A concrete state with one stored peer, as loaded from disk. -/
def sampleConfig : Config :=
  { server :=
      { privateKey := "SERVERSK"
        publicKey := "SERVERPK"
        address := "10.8.0.1"
        cidrSubnet := none }
    clients := [("c1", sampleClient)] }

/-- A concrete live-status dump line whose public key matches no stored
peer of `sampleConfig`. -/
def sampleDumpLine : DumpLine :=
  { publicKey := "OTHERPK"
    preSharedKey := "(none)"
    endpoint := "203.0.113.9:51820"
    allowedIps := "10.8.0.7/32"
    latestHandshakeAt := "1690000000"
    transferRx := "100"
    transferTx := "200"
    persistentKeepalive := "25" }

/-! ## Helper lemmas -/

theorem find?_map_set (l : List (String × Client)) (clientId : String) (c' : Client)
    (h : (l.find? (fun p => p.1 = clientId)).isSome) :
    (l.map (fun p => if p.1 = clientId then (p.1, c') else p)).find?
        (fun p => p.1 = clientId) = some (clientId, c') := by
  induction l with
  | nil => simp at h
  | cons hd tl ih =>
    by_cases hh : hd.1 = clientId
    · subst hh
      simp [List.find?]
    · rw [List.find?_cons_of_neg] at h
      · simp only [List.map_cons, if_neg hh]
        rw [List.find?_cons_of_neg]
        · exact ih h
        · simpa using hh
      · simpa using hh

/-- Updating the entry under a present key makes later lookups of that
key return the new value. -/
theorem lookupClient_setClient (config : Config) (clientId : String) (c c' : Client)
    (h : lookupClient config clientId = some c) :
    lookupClient (setClient config clientId c') clientId = some c' := by
  have hs : (config.clients.find? (fun p => p.1 = clientId)).isSome := by
    unfold lookupClient at h
    cases hf : config.clients.find? (fun p => p.1 = clientId) with
    | none => rw [hf] at h; simp at h
    | some q => simp [hf]
  unfold lookupClient setClient
  simp [find?_map_set config.clients clientId c' hs]

theorem splitCh_of_not_mem (sep : Char) (l : List Char) (h : sep ∉ l) :
    splitCh sep l = [l] := by
  induction l with
  | nil => rfl
  | cons c cs ih =>
    have hc : ¬ c = sep := by
      intro e
      exact h (by simp [e])
    have hcs : sep ∉ cs := fun m => h (List.mem_cons_of_mem _ m)
    simp [splitCh, hc, ih hcs]

theorem splitCh_append (sep : Char) (a b : List Char) (h : sep ∉ a) :
    splitCh sep (a ++ sep :: b) = a :: splitCh sep b := by
  induction a with
  | nil => simp [splitCh]
  | cons c cs ih =>
    have hc : ¬ c = sep := by
      intro e
      exact h (by simp [e])
    have hcs : sep ∉ cs := fun m => h (List.mem_cons_of_mem _ m)
    simp [splitCh, hc, ih hcs]

theorem jsSplit_append_sep (sep : Char) (s t : String) (h : sep ∉ s.data) :
    jsSplit (s ++ ⟨[sep]⟩ ++ t) sep = s :: jsSplit t sep := by
  unfold jsSplit
  have hd : (s ++ ⟨[sep]⟩ ++ t).data = s.data ++ sep :: t.data := by
    simp [String.data_append]
  rw [hd, splitCh_append sep _ _ h]
  rfl

theorem jsSplit_of_not_mem (sep : Char) (s : String) (h : sep ∉ s.data) :
    jsSplit s sep = [s] := by
  unfold jsSplit
  rw [splitCh_of_not_mem sep _ h]
  rfl

/-- For a default address block of dotted form `a.b.c.d/n`, the
bootstrap address computation yields `a.b.c.1`. -/
theorem bootstrapAddress_forces_last_octet (a b c d n : String)
    (had : '.' ∉ a.data) (has : '/' ∉ a.data)
    (hbd : '.' ∉ b.data) (hbs : '/' ∉ b.data)
    (hcd : '.' ∉ c.data) (hcs : '/' ∉ c.data)
    (hdd : '.' ∉ d.data) (hds : '/' ∉ d.data) :
    bootstrapAddress (a ++ "." ++ b ++ "." ++ c ++ "." ++ d ++ "/" ++ n)
      = a ++ "." ++ b ++ "." ++ c ++ ".1" := by
  have e0 : a ++ "." ++ b ++ "." ++ c ++ "." ++ d ++ "/" ++ n
      = (a ++ ⟨['.']⟩ ++ (b ++ ⟨['.']⟩ ++ (c ++ ⟨['.']⟩ ++ d))) ++ ⟨['/']⟩ ++ n := by
    apply String.ext
    simp [String.data_append]
  have h1 : jsSplit (a ++ "." ++ b ++ "." ++ c ++ "." ++ d ++ "/" ++ n) '/'
      = (a ++ ⟨['.']⟩ ++ (b ++ ⟨['.']⟩ ++ (c ++ ⟨['.']⟩ ++ d))) :: jsSplit n '/' := by
    rw [e0]
    refine jsSplit_append_sep '/' _ n ?_
    simp [String.data_append, has, hbs, hcs, hds]
  have h2 : jsSplit (a ++ ⟨['.']⟩ ++ (b ++ ⟨['.']⟩ ++ (c ++ ⟨['.']⟩ ++ d))) '.'
      = [a, b, c, d] := by
    rw [jsSplit_append_sep '.' a _ had, jsSplit_append_sep '.' b _ hbd,
      jsSplit_append_sep '.' c _ hcd, jsSplit_of_not_mem '.' d hdd]
  simp only [bootstrapAddress, h1, List.headD, h2]
  have h3 : jsSetIndex [a, b, c, d] 3 "1" = [a, b, c, "1"] := by
    simp [jsSetIndex, List.set]
  rw [h3]
  show a ++ "." ++ (b ++ "." ++ (c ++ "." ++ "1")) = a ++ "." ++ b ++ "." ++ c ++ ".1"
  apply String.ext
  simp [String.data_append]

theorem clientsSections_filter (l : List (String × Client)) :
    clientsSections (l.filter (fun p => p.2.enabled)) = clientsSections l := by
  induction l with
  | nil => rfl
  | cons hd tl ih =>
    obtain ⟨cid, c⟩ := hd
    by_cases he : c.enabled
    · simp [List.filter_cons, he, clientsSections, ih]
    · simp [List.filter_cons, he, clientsSections, ih]

theorem applyDumpLine_map {α : Type} (f : CView → α)
    (hf : ∀ c l, f (mergeLine c l) = f c) (l : List CView) (d : DumpLine) :
    (applyDumpLine l d).map f = l.map f := by
  induction l with
  | nil => rfl
  | cons c rest ih =>
    by_cases hm : c.publicKey = d.publicKey
    · simp [applyDumpLine, hm, hf]
    · simp [applyDumpLine, hm, ih]

theorem foldl_applyDumpLine_map {α : Type} (f : CView → α)
    (hf : ∀ c l, f (mergeLine c l) = f c) (ds : List DumpLine) (l : List CView) :
    (ds.foldl applyDumpLine l).map f = l.map f := by
  induction ds generalizing l with
  | nil => rfl
  | cons d ds ih => rw [List.foldl_cons, ih, applyDumpLine_map f hf]

theorem applyDumpLine_unmatched (l : List CView) (d : DumpLine)
    (h : ∀ c ∈ l, c.publicKey ≠ d.publicKey) :
    applyDumpLine l d = l := by
  induction l with
  | nil => rfl
  | cons c rest ih =>
    have hc : ¬ c.publicKey = d.publicKey := h c (by simp)
    simp only [applyDumpLine, if_neg hc, List.cons.injEq, true_and]
    exact ih (fun x hx => h x (by simp [hx]))

theorem applyDumpLine_first_match (pre : List CView) (c : CView) (post : List CView)
    (d : DumpLine) (hpre : ∀ x ∈ pre, x.publicKey ≠ d.publicKey)
    (hc : c.publicKey = d.publicKey) :
    applyDumpLine (pre ++ c :: post) d = pre ++ mergeLine c d :: post := by
  induction pre with
  | nil => simp [applyDumpLine, hc]
  | cons x xs ih =>
    have hx : ¬ x.publicKey = d.publicKey := hpre x (by simp)
    simp only [List.cons_append, applyDumpLine, if_neg hx, List.cons.injEq, true_and]
    exact ih (fun y hy => hpre y (by simp [hy]))

theorem foldl_applyDumpLine_unmatched (ds : List DumpLine) (l : List CView)
    (h : ∀ d ∈ ds, ∀ c ∈ l, c.publicKey ≠ d.publicKey) :
    ds.foldl applyDumpLine l = l := by
  induction ds with
  | nil => rfl
  | cons d ds ih =>
    rw [List.foldl_cons, applyDumpLine_unmatched l d (h d (by simp))]
    exact ih (fun d2 hd2 c hc => h d2 (by simp [hd2]) c hc)

theorem digitsVal_append (xs ys : List Char) (acc : Nat) :
    digitsVal (xs ++ ys) acc = digitsVal ys (digitsVal xs acc) := by
  induction xs generalizing acc with
  | nil => rfl
  | cons c cs ih => simp [digitsVal, ih]

/-- Entries that agree on the key and on everything but the key-material
values have the same base projection. -/
theorem baseView_congr (p q : String × Client) (hk : p.1 = q.1)
    (hs : sameShape p.2 q.2) : baseView p = baseView q := by
  obtain ⟨h1, h2, h3, h4, h5, h6, h7, h8, h9, h10, h11⟩ := hs
  simp only [baseView, hk, h2, h3, h4, h6, h7, h8, h9, h10]

theorem map_baseView_congr (l1 l2 : List (String × Client))
    (h : List.Forall₂ (fun p q => p.1 = q.1 ∧ sameShape p.2 q.2) l1 l2) :
    l1.map baseView = l2.map baseView := by
  induction h with
  | nil => rfl
  | cons hab htl ih =>
    simp only [List.map_cons, ih, List.cons.injEq, and_true]
    exact baseView_congr _ _ hab.1 hab.2

/-- Appending three zero digits multiplies the value by 1000: the
seconds-to-milliseconds conversion done by `Number(field + "000")`. -/
theorem jsNumberDigits_append_000 (s : String) :
    jsNumberDigits (s ++ "000") = 1000 * jsNumberDigits s := by
  unfold jsNumberDigits
  rw [String.data_append, digitsVal_append]
  show digitsVal ['0', '0', '0'] (digitsVal s.data 0) = 1000 * digitsVal s.data 0
  have h0 : '0'.toNat - 48 = 0 := rfl
  simp [digitsVal, h0]
  ring

/-! ## Claim theorems -/

/-- **C1** — evidence for the divergence: on a fresh state with one
stored peer at host suffix 2, `createClient` with a non-empty name scans
candidate 2 (conflict: the stored peer address has last octet 2), moves
to candidate 3, finds no conflicting stored peer — and then, instead of
assigning suffix 3 (or, per the claim, suffix 2) and inserting the new
peer, throws a TypeError: inside the `if (!client)` branch the source
reads `client.address` although `client` was just found to be
`undefined`. The operation never inserts a peer and never returns one. -/
theorem createClient_typeError_at_free_candidate :
    createClient sampleConfig "bob" "GENKEY" "GENPUB" "GENPSK" 1000 "uuid-1"
      = .error (.typeError "Cannot read properties of undefined (reading address)") := by
  rfl

/-- **C7** — counterexample to the claim as stated: `createClient` with
an empty name does fail before touching the state, but the thrown value
is a plain `Error` carrying only the human message `Missing: Name`;
unlike the 404/400 `ServerError` values of the other validation
failures, it carries no machine-readable status. -/
theorem createClient_emptyName_statusless :
    createClient sampleConfig "" "GENKEY" "GENPUB" "GENPSK" 1000 "uuid-1"
      = .error (.error "Missing: Name")
    ∧ (JsError.error "Missing: Name").status? = none := by
  exact ⟨rfl, rfl⟩

/-- **C7** (amended) — for every state, `createPeer` with an empty name
fails with the validation error message `Missing: Name` and no attached
status code, before any key generation, insertion or persist: the
returned value is an error, so the stored collection is unchanged. -/
theorem createClient_emptyName_rejected (config : Config)
    (privateKey publicKey preSharedKey : String) (now : Nat) (newId : String) :
    createClient config "" privateKey publicKey preSharedKey now newId
      = .error (.error "Missing: Name")
    ∧ (JsError.error "Missing: Name").status? = none := by
  exact ⟨rfl, rfl⟩

/-- **C5** — on an id with no stored peer, `getClient` fails with the
404 not-found `ServerError`, and each mutation beginning with the same
lookup (`enableClient`, `disableClient`, `updateClientName`,
`updateClientAddress`) fails with the identical error; all return
`Except.error`, so no updated state is produced. -/
theorem getClient_notFound_404 (config : Config) (clientId name address : String)
    (now : Nat) (h : lookupClient config clientId = none) :
    getClient config clientId
        = .error (.serverError ("Client Not Found: " ++ clientId) 404)
    ∧ enableClient config clientId now
        = .error (.serverError ("Client Not Found: " ++ clientId) 404)
    ∧ disableClient config clientId now
        = .error (.serverError ("Client Not Found: " ++ clientId) 404)
    ∧ updateClientName config clientId name now
        = .error (.serverError ("Client Not Found: " ++ clientId) 404)
    ∧ updateClientAddress config clientId address now
        = .error (.serverError ("Client Not Found: " ++ clientId) 404) := by
  have hg : getClient config clientId
      = .error (.serverError ("Client Not Found: " ++ clientId) 404) := by
    simp [getClient, h]
  refine ⟨hg, ?_, ?_, ?_, ?_⟩ <;>
    simp [enableClient, disableClient, updateClientName, updateClientAddress, hg,
      Bind.bind, Except.bind]

/-- Closed instance of `getClient_notFound_404` at a concrete state and
an id absent from it. -/
theorem getClient_notFound_404_witness :
    getClient sampleConfig "zzz"
      = .error (.serverError ("Client Not Found: " ++ "zzz") 404) :=
  (getClient_notFound_404 sampleConfig "zzz" "n" "10.8.0.9" 5 (by decide)).1

/-- **C2** — with no readable persisted document (`loadConfig none`),
the first `getConfig` call caches and returns a bootstrap state: the
server address is the configured default address block (here of the
dotted form `a.b.c.d/n`) with its last octet forced to 1, and the peer
collection is empty. A second call, with an arbitrary loader standing
for whatever the disk would now produce, returns the identical cached
object and does not invoke that loader. -/
theorem getConfig_bootstrap_and_memo (a b c d n pk pub : String) (load2 : Unit → Config)
    (had : '.' ∉ a.data) (has : '/' ∉ a.data)
    (hbd : '.' ∉ b.data) (hbs : '/' ∉ b.data)
    (hcd : '.' ∉ c.data) (hcs : '/' ∉ c.data)
    (hdd : '.' ∉ d.data) (hds : '/' ∉ d.data) :
    (getConfigMemo none (fun _ =>
        loadConfig none (a ++ "." ++ b ++ "." ++ c ++ "." ++ d ++ "/" ++ n) pk pub)).1.server.address
      = a ++ "." ++ b ++ "." ++ c ++ ".1"
    ∧ (getConfigMemo none (fun _ =>
        loadConfig none (a ++ "." ++ b ++ "." ++ c ++ "." ++ d ++ "/" ++ n) pk pub)).1.clients
      = []
    ∧ getConfigMemo
        (getConfigMemo none (fun _ =>
          loadConfig none (a ++ "." ++ b ++ "." ++ c ++ "." ++ d ++ "/" ++ n) pk pub)).2 load2
      = ((getConfigMemo none (fun _ =>
          loadConfig none (a ++ "." ++ b ++ "." ++ c ++ "." ++ d ++ "/" ++ n) pk pub)).1,
         (getConfigMemo none (fun _ =>
          loadConfig none (a ++ "." ++ b ++ "." ++ c ++ "." ++ d ++ "/" ++ n) pk pub)).2) :=
  ⟨bootstrapAddress_forces_last_octet a b c d n had has hbd hbs hcd hcs hdd hds, rfl, rfl⟩

/-- Closed instance of `getConfig_bootstrap_and_memo` at the default
address block `10.8.0.x/24`. -/
theorem getConfig_bootstrap_and_memo_witness :
    (getConfigMemo none (fun _ =>
        loadConfig none ("10" ++ "." ++ "8" ++ "." ++ "0" ++ "." ++ "x" ++ "/" ++ "24") "SK" "PK")).1.server.address
      = "10" ++ "." ++ "8" ++ "." ++ "0" ++ ".1"
    ∧ (getConfigMemo none (fun _ =>
        loadConfig none ("10" ++ "." ++ "8" ++ "." ++ "0" ++ "." ++ "x" ++ "/" ++ "24") "SK" "PK")).1.clients
      = []
    ∧ getConfigMemo
        (getConfigMemo none (fun _ =>
          loadConfig none ("10" ++ "." ++ "8" ++ "." ++ "0" ++ "." ++ "x" ++ "/" ++ "24") "SK" "PK")).2
        (fun _ => sampleConfig)
      = ((getConfigMemo none (fun _ =>
          loadConfig none ("10" ++ "." ++ "8" ++ "." ++ "0" ++ "." ++ "x" ++ "/" ++ "24") "SK" "PK")).1,
         (getConfigMemo none (fun _ =>
          loadConfig none ("10" ++ "." ++ "8" ++ "." ++ "0" ++ "." ++ "x" ++ "/" ++ "24") "SK" "PK")).2) :=
  getConfig_bootstrap_and_memo "10" "8" "0" "x" "24" "SK" "PK" (fun _ => sampleConfig)
    (by decide) (by decide) (by decide) (by decide)
    (by decide) (by decide) (by decide) (by decide)

/-- **C6** — `updateClientAddress` on an existing peer: an address the
validator rejects yields the 400 `ServerError` and no new state; an
accepted address yields the state with exactly that peer overwritten
(address set, `updatedAt` stamped), as the subsequent lookup confirms.
The two concrete probes of the claim are included. -/
theorem updateClientAddress_spec (config : Config) (clientId : String) (c : Client)
    (now : Nat) (h : lookupClient config clientId = some c) :
    (∀ address, isValidIPv4 address = false →
        updateClientAddress config clientId address now
          = .error (.serverError ("Invalid Address: " ++ address) 400))
    ∧ (∀ address, isValidIPv4 address = true →
        updateClientAddress config clientId address now
          = .ok (setClient config clientId { c with address := address, updatedAt := now })
        ∧ lookupClient
              (setClient config clientId { c with address := address, updatedAt := now })
              clientId
            = some { c with address := address, updatedAt := now })
    ∧ isValidIPv4 "999.1.1.1" = false
    ∧ isValidIPv4 "10.8.0.5" = true := by
  refine ⟨?_, ?_, by decide, by decide⟩
  · intro address hv
    simp [updateClientAddress, getClient, h, hv, Bind.bind, Except.bind]
  · intro address hv
    refine ⟨?_, lookupClient_setClient config clientId c _ h⟩
    simp [updateClientAddress, getClient, h, hv, Bind.bind, Except.bind,
      Pure.pure, Except.pure]

/-- Closed instance of `updateClientAddress_spec` at a concrete state:
the rejected and the accepted probe address of the claim. -/
theorem updateClientAddress_spec_witness :
    updateClientAddress sampleConfig "c1" "999.1.1.1" 7
      = .error (.serverError ("Invalid Address: " ++ "999.1.1.1") 400)
    ∧ updateClientAddress sampleConfig "c1" "10.8.0.5" 7
      = .ok (setClient sampleConfig "c1"
          { sampleClient with address := "10.8.0.5", updatedAt := 7 }) :=
  ⟨(updateClientAddress_spec sampleConfig "c1" sampleClient 7 (by decide)).1
      "999.1.1.1" (by decide),
    (((updateClientAddress_spec sampleConfig "c1" sampleClient 7 (by decide)).2.1
      "10.8.0.5" (by decide))).1⟩

/-- **C3** — the daemon config text rendered by `__saveConfig` is
unchanged when the disabled peers are removed from the collection
beforehand: the peer-section loop skips them, so a disabled peer
contributes no `[Peer]` section at all. Meanwhile `getClients` produces
exactly one entry per stored peer, enabled or not, in collection order:
the identifier sequence of its result is exactly the key sequence of
the stored collection, for every dump. -/
theorem saveConfig_omits_disabled_getClients_lists_all (env : Env) (config : Config)
    (dump : List DumpLine) :
    saveConfigText env
        { config with clients := config.clients.filter (fun p => p.2.enabled) }
      = saveConfigText env config
    ∧ (getClients config dump).map (fun v => v.id) = config.clients.map (fun p => p.1) := by
  constructor
  · unfold saveConfigText
    rw [clientsSections_filter]
    rfl
  · unfold getClients
    rw [foldl_applyDumpLine_map (fun v => v.id) (fun _ _ => rfl), List.map_map]
    rfl

/-- **C4** — the live-status merge of `getClients`: a dump line matching
no stored peer by exact public-key equality changes nothing (both for a
single application and for a whole dump none of whose data lines match a
stored peer); a line is merged into the first peer with exactly its
public key, leaving all others alone; and the merged
`latestHandshakeAt` is null for the literal `"0"` field and otherwise
the field read as epoch-seconds, scaled to an absolute
epoch-millisecond timestamp. -/
theorem getClients_merge_semantics (config : Config) (dump : List DumpLine)
    (clients : List CView) (d : DumpLine) :
    ((∀ c ∈ clients, c.publicKey ≠ d.publicKey) → applyDumpLine clients d = clients)
    ∧ (∀ pre c post, (∀ x ∈ pre, x.publicKey ≠ d.publicKey) →
        c.publicKey = d.publicKey →
        applyDumpLine (pre ++ c :: post) d = pre ++ mergeLine c d :: post)
    ∧ (∀ c : CView, (mergeLine c d).latestHandshakeAt
        = if d.latestHandshakeAt = "0" then none
          else some (1000 * jsNumberDigits d.latestHandshakeAt))
    ∧ ((∀ d2 ∈ dump.drop 1, ∀ p ∈ config.clients, p.2.publicKey ≠ d2.publicKey) →
        getClients config dump = config.clients.map baseView) := by
  refine ⟨applyDumpLine_unmatched clients d,
    fun pre c post h1 h2 => applyDumpLine_first_match pre c post d h1 h2, ?_, ?_⟩
  · intro c
    by_cases h0 : d.latestHandshakeAt = "0" <;>
      simp [mergeLine, h0, jsNumberDigits_append_000]
  · intro hall
    unfold getClients
    refine foldl_applyDumpLine_unmatched _ _ ?_
    intro d2 hd2 c hc
    obtain ⟨p, hp, rfl⟩ := List.mem_map.mp hc
    exact hall d2 hd2 p hp

/-- Closed instance of `getClients_merge_semantics`: the sample dump
line matches no stored peer of the sample state, so applying it changes
nothing; and on a matched peer its handshake field `"1690000000"` would
merge to the epoch-millisecond timestamp. -/
theorem getClients_merge_semantics_witness :
    applyDumpLine [baseView ("c1", sampleClient)] sampleDumpLine
      = [baseView ("c1", sampleClient)]
    ∧ (mergeLine (baseView ("c1", sampleClient)) sampleDumpLine).latestHandshakeAt
      = if sampleDumpLine.latestHandshakeAt = "0" then none
        else some (1000 * jsNumberDigits sampleDumpLine.latestHandshakeAt) :=
  ⟨(getClients_merge_semantics sampleConfig [] [baseView ("c1", sampleClient)]
      sampleDumpLine).1 (by decide),
    (getClients_merge_semantics sampleConfig [] [baseView ("c1", sampleClient)]
      sampleDumpLine).2.2.1 (baseView ("c1", sampleClient))⟩

/-- **C10** — `getClients` cannot observe private-key or pre-shared-key
values: two states whose peer collections agree key-for-key on
everything except those values (presence included) produce identical
results for every dump; and each returned entry exposes the stored
private key only through the boolean `downloadableConfig`, which equals
its presence. -/
theorem getClients_hides_key_material (cfg1 cfg2 : Config) (dump : List DumpLine)
    (h : List.Forall₂ (fun p q => p.1 = q.1 ∧ sameShape p.2 q.2) cfg1.clients cfg2.clients) :
    getClients cfg1 dump = getClients cfg2 dump
    ∧ (getClients cfg1 dump).map (fun v => v.downloadableConfig)
        = cfg1.clients.map (fun p => p.2.privateKey.isSome) := by
  have base : cfg1.clients.map baseView = cfg2.clients.map baseView :=
    map_baseView_congr cfg1.clients cfg2.clients h
  constructor
  · unfold getClients
    rw [base]
  · unfold getClients
    rw [foldl_applyDumpLine_map (fun v => v.downloadableConfig) (fun _ _ => rfl),
      List.map_map]
    rfl

/-- Closed instance of `getClients_hides_key_material`: two sample
states that differ only in the stored private-key and pre-shared-key
values yield the same listing. -/
theorem getClients_hides_key_material_witness :
    getClients sampleConfig [sampleDumpLine]
      = getClients
          { sampleConfig with clients :=
              [("c1", { sampleClient with
                  privateKey := some "ADIFFERENTSECRET"
                  preSharedKey := some "ANOTHERPSK" })] }
          [sampleDumpLine] :=
  (getClients_hides_key_material sampleConfig
    { sampleConfig with clients :=
        [("c1", { sampleClient with
            privateKey := some "ADIFFERENTSECRET"
            preSharedKey := some "ANOTHERPSK" })] }
    [sampleDumpLine]
    (List.Forall₂.cons ⟨rfl, by decide⟩ List.Forall₂.nil)).1

theorem countChar_append (a b : String) (ch : Char) :
    countChar (a ++ b) ch = countChar a ch + countChar b ch := by
  unfold countChar
  rw [String.data_append, List.count_append]

theorem countChar_zero_of_bracketFree (s : String) (h : bracketFree s = true) :
    countChar s '[' = 0 := by
  unfold countChar
  refine List.count_eq_zero.mpr ?_
  intro hm
  have := List.all_eq_true.mp h _ hm
  simp at this

set_option maxRecDepth 4000 in
/-- **C8** — evidence for the divergence: the `[Interface]` Address line
rendered by `__saveConfig` for the bootstrapped state, and the Address
line rendered by `getClientConfiguration` for a stored peer, both carry
the literal `undefined` in place of a subnet width, because the
`cidrSubnet` computed from the default address block is never stored on
the server record and no peer ever receives one. -/
theorem addressLine_renders_undefined :
    (∃ t2 : String,
      saveConfigText sampleEnv (bootstrapConfig "10.8.0.x/24" "SK" "PK")
        = "\n# Note: Do not edit this file directly.\n# Your changes will be overwritten!\n\n# Server\n[Interface]\nPrivateKey = SK\n"
          ++ "Address = 10.8.0.1/undefined" ++ t2)
    ∧ (∃ u2 : String,
      getClientConfiguration sampleEnv sampleConfig "c1"
        = .ok ("\n[Interface]\nPrivateKey = CLIENTSK\n"
          ++ "Address = 10.8.0.2/undefined" ++ u2)) :=
  ⟨⟨"\nListenPort = 51820\nPreUp = \nPostUp = \nPreDown = \nPostDown = \n", by rfl⟩,
   ⟨"\nDNS = 1.1.1.1\n\n[Peer]\nPublicKey = SERVERPK\nPresharedKey = CLIENTPSK\nAllowedIPs = 0.0.0.0/0, ::/0\nPersistentKeepalive = 0\nEndpoint = vpn.example.com:51820",
    by rfl⟩⟩

/-- **C9** — for every stored peer, the text rendered by
`getClientConfiguration` decomposes around its two section markers, and
— provided every interpolated value is free of the section-opening
bracket, as key material, addresses and host names are — contains
exactly two such brackets in total: so exactly one `[Interface]` and
exactly one `[Peer]` section. A peer without a stored private key gets
the literal `REPLACE_ME` placeholder on the PrivateKey line, never a
blank value. -/
theorem renderPeerConfig_sections (env : Env) (config : Config) (clientId : String)
    (c : Client) (h : lookupClient config clientId = some c)
    (hb : configFieldsBracketFree env config c = true) :
    ∃ A B, getClientConfiguration env config clientId
        = .ok ("\n[Interface]\nPrivateKey = " ++ A ++ "\n[Peer]\nPublicKey = " ++ B)
      ∧ countChar ("\n[Interface]\nPrivateKey = " ++ A ++ "\n[Peer]\nPublicKey = " ++ B) '[' = 2
      ∧ (c.privateKey = none → ∃ u, A = "REPLACE_ME" ++ "\nAddress = " ++ u) := by
  simp only [configFieldsBracketFree, Bool.and_eq_true] at hb
  obtain ⟨⟨⟨⟨⟨⟨⟨⟨⟨⟨hb1, hb2⟩, hb3⟩, hb4⟩, hb5⟩, hb6⟩, hb7⟩, hb8⟩, hb9⟩, hb10⟩, hb11⟩ := hb
  refine ⟨(if jsTruthy c.privateKey then jsInterp c.privateKey else "REPLACE_ME")
      ++ "\nAddress = " ++ c.address ++ "/" ++ jsInterp c.cidrSubnet ++ "\n"
      ++ (if jsTruthy env.wgDefaultDns then "DNS = " ++ jsInterp env.wgDefaultDns ++ "\n" else "")
      ++ (if jsTruthy env.wgMtu then "MTU = " ++ jsInterp env.wgMtu ++ "\n" else ""),
    config.server.publicKey ++ "\n"
      ++ (if jsTruthy c.preSharedKey then "PresharedKey = " ++ jsInterp c.preSharedKey ++ "\n" else "")
      ++ "AllowedIPs = " ++ env.wgAllowedIps
      ++ "\nPersistentKeepalive = " ++ env.wgPersistentKeepalive
      ++ "\nEndpoint = " ++ env.wgHost ++ ":" ++ env.wgConfigPort, ?_, ?_, ?_⟩
  · simp only [getClientConfiguration, getClient, h, Bind.bind, Except.bind, Pure.pure,
      Except.pure, Except.ok.injEq, String.append_assoc]
  · have cP : countChar (if jsTruthy c.privateKey then jsInterp c.privateKey
        else "REPLACE_ME") '[' = 0 := by
      by_cases hp : jsTruthy c.privateKey
      · simp only [if_pos hp]
        exact countChar_zero_of_bracketFree _ hb1
      · simp only [if_neg hp]
        decide
    have cD : countChar (if jsTruthy env.wgDefaultDns then
        "DNS = " ++ jsInterp env.wgDefaultDns ++ "\n" else "") '[' = 0 := by
      by_cases hp : jsTruthy env.wgDefaultDns
      · simp only [if_pos hp, countChar_append, countChar_zero_of_bracketFree _ hb4]
        decide
      · simp only [if_neg hp]
        decide
    have cM : countChar (if jsTruthy env.wgMtu then
        "MTU = " ++ jsInterp env.wgMtu ++ "\n" else "") '[' = 0 := by
      by_cases hp : jsTruthy env.wgMtu
      · simp only [if_pos hp, countChar_append, countChar_zero_of_bracketFree _ hb5]
        decide
      · simp only [if_neg hp]
        decide
    have cK : countChar (if jsTruthy c.preSharedKey then
        "PresharedKey = " ++ jsInterp c.preSharedKey ++ "\n" else "") '[' = 0 := by
      by_cases hp : jsTruthy c.preSharedKey
      · simp only [if_pos hp, countChar_append, countChar_zero_of_bracketFree _ hb7]
        decide
      · simp only [if_neg hp]
        decide
    simp only [countChar_append, cP, cD, cM, cK,
      countChar_zero_of_bracketFree _ hb2, countChar_zero_of_bracketFree _ hb3,
      countChar_zero_of_bracketFree _ hb6, countChar_zero_of_bracketFree _ hb8,
      countChar_zero_of_bracketFree _ hb9, countChar_zero_of_bracketFree _ hb10,
      countChar_zero_of_bracketFree _ hb11]
    decide
  · intro hp
    refine ⟨c.address ++ "/" ++ jsInterp c.cidrSubnet ++ "\n"
      ++ (if jsTruthy env.wgDefaultDns then "DNS = " ++ jsInterp env.wgDefaultDns ++ "\n" else "")
      ++ (if jsTruthy env.wgMtu then "MTU = " ++ jsInterp env.wgMtu ++ "\n" else ""), ?_⟩
    simp only [hp, jsTruthy, if_neg Bool.false_ne_true, String.append_assoc]

/-- Closed instance of `renderPeerConfig_sections` at the sample state
and peer. -/
theorem renderPeerConfig_sections_witness :
    ∃ A B, getClientConfiguration sampleEnv sampleConfig "c1"
        = .ok ("\n[Interface]\nPrivateKey = " ++ A ++ "\n[Peer]\nPublicKey = " ++ B)
      ∧ countChar ("\n[Interface]\nPrivateKey = " ++ A ++ "\n[Peer]\nPublicKey = " ++ B) '[' = 2
      ∧ (sampleClient.privateKey = none → ∃ u, A = "REPLACE_ME" ++ "\nAddress = " ++ u) :=
  renderPeerConfig_sections sampleEnv sampleConfig "c1" sampleClient (by decide) (by decide)
